import Mathlib

/-!
Verification of the dispatch layer of `tg/controllers/decoratedcontroller.py`
(the `DecoratedController` class): parameter validation, validation-error
classification, security checking, response rendering and the `_call`
orchestration, shallowly embedded in Lean.

Python dictionaries are embedded as association lists (`List (String × α)`)
with insertion-order semantics: assignment replaces the value of an existing
key in place, otherwise appends.  Python strings are embedded as `String`,
with splitting/stripping re-implemented by structural recursion over the
character list so that everything evaluates inside the kernel.
-/

set_option autoImplicit false

namespace TG

/-- Lookup in an association-list dictionary (`d.get(k)` / `d[k]`). -/
def lookupMap {α : Type} (m : List (String × α)) (k : String) : Option α :=
  match m with
  | [] => none
  | kv :: rest => if kv.1 = k then some kv.2 else lookupMap rest k

/-- Dictionary assignment `d[k] = v`: replace the value of an existing key in
place, otherwise append the new pair (Python insertion-order semantics). -/
def updateMap {α : Type} (m : List (String × α)) (k : String) (v : α) :
    List (String × α) :=
  match m with
  | [] => [(k, v)]
  | kv :: rest => if kv.1 = k then (k, v) :: rest else kv :: updateMap rest k v

/-- Dictionary removal `d.pop(k, None)`: drop the entry with key `k`. -/
def popKey {α : Type} (m : List (String × α)) (k : String) : List (String × α) :=
  m.filter (fun kv => kv.1 != k)

/-- Build a dictionary from a list of pairs (`dict(pairs)`): later pairs with
the same key overwrite earlier ones. -/
def dictOfPairs {α : Type} (l : List (String × α)) : List (String × α) :=
  l.foldl (fun m kv => updateMap m kv.1 kv.2) []

/-- Python whitespace characters recognised by `str.strip()`. -/
def isPyWs (c : Char) : Bool :=
  c = ' ' || c = '\t' || c = '\n' || c = '\r' || c = Char.ofNat 11 || c = Char.ofNat 12

/-- Python `str.strip()`: remove leading and trailing whitespace. -/
def pyStrip (s : String) : String :=
  String.mk (((s.data.dropWhile isPyWs).reverse.dropWhile isPyWs).reverse)

/-- Helper for `pySplitChar`, accumulating the current fragment in reverse. -/
def splitCharAux (sep : Char) : List Char → List Char → List String
  | [], acc => [String.mk acc.reverse]
  | c :: rest, acc =>
    if c = sep then String.mk acc.reverse :: splitCharAux sep rest []
    else splitCharAux sep rest (c :: acc)

/-- Python `s.split(sep)` for a one-character separator: keeps empty
fragments, so `"".split(sep) == [""]` and `"a\n".split("\n") == ["a", ""]`. -/
def pySplitChar (sep : Char) (s : String) : List String :=
  splitCharAux sep s.data []

/-- Helper for `pySplitOnce`, accumulating the prefix before the separator. -/
def splitOnceAux (sep : Char) : List Char → List Char → String × Option String
  | [], acc => (String.mk acc.reverse, none)
  | c :: rest, acc =>
    if c = sep then (String.mk acc.reverse, some (String.mk rest))
    else splitOnceAux sep rest (c :: acc)

/-- Python `s.split(sep, 1)` for a one-character separator: `(s, none)` when
the separator does not occur, otherwise the parts before and after its first
occurrence. -/
def pySplitOnce (sep : Char) (s : String) : String × Option String :=
  splitOnceAux sep s.data []

/-- Substring test on character lists (used for Python's `sub in s`). -/
def containsSub (sub : List Char) : List Char → Bool
  | [] => List.isPrefixOf sub []
  | c :: rest => List.isPrefixOf sub (c :: rest) || containsSub sub rest

/-- Python `sub in s` on strings: substring containment. -/
def strContains (s sub : String) : Bool :=
  containsSub sub.data s.data

/-- Python `s.startswith(p)`. -/
def strStartsWith (s p : String) : Bool :=
  List.isPrefixOf p.data s.data

/-!
Validation data model.

Controller functions are identified by `Nat` ids; each id is mapped to its
decoration by the dispatch environment (`CallEnv.decoration`), mirroring the
`decoration` attribute Python attaches to the function object.  A bound
method (`action`) pairs a function id with an optional instance id
(`__self__`); a plain function has no instance.
-/

/-- A bound controller method: the underlying function (`__func__`) and the
instance it is bound to (`__self__`), `none` for a plain function. -/
structure BoundMethod where
  func : Nat
  self : Option Nat

/-- `tg._compat.default_im_func(f)`: the underlying function of a bound
method, or the object itself when it is already a plain function. -/
def default_im_func (m : BoundMethod) : Nat := m.func

/-- `tg._compat.im_self(f)`: the bound instance, `none` for a plain
function. -/
def im_self (m : BoundMethod) : Option Nat := m.self

/-- A plain (unbound) function viewed as a controller argument: it has no
`__self__`. -/
def asBareFn (f : Nat) : BoundMethod := ⟨f, none⟩

/-- The shapes of validation-failure exceptions distinguished by
`_process_validation_errors` (`validation_errors`).  `P` is the type of
value maps.

* `tw2` (`_Tw2ValidationError`): carries the flattened widget children as
  `(compound_key, error_msg)` pairs (the flattening by
  `_navigate_tw2form_children` lives in `tg.validation`, outside this
  module) together with `widget.child.value`.
* `tgval` (`TGValidationError`): carries `error_dict` and `value`.
* `generic`: any other `Invalid`-style failure; carries its string form
  (`str(exception)`) and an optional `value` attribute. -/
inductive VException (P : Type) where
  | tw2 (widget_children : List (String × String)) (widget_value : P)
  | tgval (error_dict : List (String × String)) (value : P)
  | generic (message : String) (value : Option P)

/-- A validation intent from `decoration.validations`.  `check` models
`validation_intent.check(controller, params)`, returning cleaned parameters
or raising a validation failure.  `error_handler` and `chain_validation` are
the intent's validation configuration (attached by the `@validate` decorator
in `tg/decorators.py`, outside this module). -/
structure Intent (P : Type) where
  check : Nat → P → Except (VException P) P
  error_handler : Option Nat := none
  chain_validation : Bool := false

/-- The per-request `_ValidationStatus` record: the intent currently being
run, the accumulated field→message error map, the value map, and the last
exception.  A fresh status has no intent, no errors and empty values. -/
structure VStatus (P : Type) where
  intent : Option (Intent P) := none
  errors : List (String × String) := []
  values : P
  exception : Option (VException P) := none

/-- Modelled from the spec: `_ValidationStatus.error_handler`
(`tg/validation.py`, not under `src/`) — "select the error-handler method …
already set into the validation status by the failure"; the failure is the
intent the runner recorded, so the status's handler is the recorded intent's
handler. -/
def VStatus.error_handler {P : Type} (st : VStatus P) : Option Nat :=
  st.intent.bind Intent.error_handler

/-- Modelled from the spec: `_ValidationStatus.chain_validation`
(`tg/validation.py`, not under `src/`) — the "flag for chained re-validation"
carried by the validation status, taken from the recorded intent. -/
def VStatus.chain_validation {P : Type} (st : VStatus P) : Bool :=
  (st.intent.map Intent.chain_validation).getD false

/-- The key under which a line of a generic failure message files its error:
the stripped text before the first colon, or the reserved `_the_form` key
when the line has no colon. -/
def errorLineKey (error : String) : String :=
  match pySplitOnce ':' error with
  | (_, none) => "_the_form"
  | (field, some _) => pyStrip field

/-- One line of a generic failure message, folded into the error map
(`decoratedcontroller.py` lines 275-284): split on the first colon, strip
both parts, key colon-less lines under `_the_form`. -/
def processErrorLine (errors : List (String × String)) (error : String) :
    List (String × String) :=
  match pySplitOnce ':' error with
  | (single, none) => updateMap errors "_the_form" (pyStrip single)
  | (field, some value) => updateMap errors (pyStrip field) (pyStrip value)

/-- The generic branch of `_process_validation_errors`: split the failure's
string form into lines and fold each line into the existing error map. -/
def processGenericLines (errors : List (String × String)) (message : String) :
    List (String × String) :=
  (pySplitChar '\n' message).foldl processErrorLine errors

/-- The keys a generic failure message writes into the error map. -/
def genericTouchedKeys (message : String) : List String :=
  (pySplitChar '\n' message).map errorLineKey

/-- `DecoratedController._process_validation_errors` (lines 242-295):
record the exception on the validation status, populate the status's errors
and values according to the failure shape, then select the error handler and
chain flag — falling back to the original controller's underlying function
with chaining off when the status carries no handler.  Returns the updated
status and the `(im_self(controller), error_handler, chain_validation)`
triple. -/
def process_validation_errors {P : Type} [EmptyCollection P]
    (controller : BoundMethod) (remainder : List String) (params : P)
    (exception : VException P) (st : VStatus P) :
    VStatus P × (Option Nat × Nat × Bool) :=
  let st := { st with exception := some exception }
  let st :=
    match exception with
    | .tw2 widget_children widget_value =>
      { st with errors := dictOfPairs widget_children, values := widget_value }
    | .tgval error_dict value =>
      { st with errors := error_dict, values := value }
    | .generic message value =>
      { st with errors := processGenericLines st.errors message,
                values := value.getD ∅ }
  match st.error_handler with
  | none => (st, (im_self controller, default_im_func controller, false))
  | some h => (st, (im_self controller, h, st.chain_validation))

/-- A controller function's decoration, as consumed here: its ordered list of
validation intents. -/
structure Decoration (P : Type) where
  validations : List (Intent P) := []

/-- The collaborators `_call` depends on: the decoration table for controller
functions, `crank.util.get_params_with_argspec` and
`crank.util.flatten_arguments` (argspec-driven parameter merging, opaque
collaborators), and `url2pathname` decoding of remainder segments. -/
structure CallEnv (P : Type) where
  decoration : Nat → Decoration P
  get_params_with_argspec : Nat → P → List String → P
  flatten_arguments : Nat → P → List String → List String × P
  url2pathname : String → String

/-- The loop body of `_perform_validate` (lines 169-173): record each intent
on the validation status, run its check, thread the cleaned output into the
next intent, and stop at the first failure (the exception propagates with the
status mutations made so far). -/
def runIntents {P : Type} (f : Nat) (validations : List (Intent P))
    (validated_params : P) (st : VStatus P) :
    VStatus P × Except (VException P) P :=
  match validations with
  | [] => (st, .ok validated_params)
  | validation_intent :: rest =>
    let st := { st with intent := some validation_intent }
    match validation_intent.check f validated_params with
    | .error e => (st, .error e)
    | .ok p => runIntents f rest p st

/-- `DecoratedController._perform_validate` (lines 140-173): pass the
parameters through unchanged when the controller's decoration has no
validations, otherwise run the intents in declared order. -/
def perform_validate {P : Type} (env : CallEnv P) (controller : Nat)
    (params : P) (st : VStatus P) : VStatus P × Except (VException P) P :=
  let validations := (env.decoration controller).validations
  if validations.isEmpty then (st, .ok params)
  else runIntents controller validations params st

/-- Observable events of a dispatch: the `before_validate` and `before_call`
hook notifications (with their `args` and `controller` keyword), plus an
instrumentation record of each `_perform_validate` invocation with the
parameters it was given. -/
inductive HookEvent (P : Type) where
  | before_validate (remainder : List String) (params : P)
      (controllerFunc : Nat) (controllerSelf : Option Nat)
  | validate_run (controllerFunc : Nat) (params : P)
  | before_call (remainder : List String) (params : P)
      (controllerFunc : Nat) (controllerSelf : Option Nat)
  deriving DecidableEq

/-- Number of `before_validate` notifications in an event trace. -/
def countBeforeValidate {P : Type} (evs : List (HookEvent P)) : Nat :=
  (evs.filter fun e =>
    match e with
    | .before_validate _ _ _ _ => true
    | _ => false).length

/-- The chained-validation loop of `_call` (lines 107-117), with explicit
fuel for the unbounded `while`: while chaining is requested, re-run
validation of the error handler against the originally merged
`validate_params`; on failure classify again (the handler, a plain function,
becomes the controller) and continue with the newly selected handler; on
success clear the chain flag and exit.  `params` stays at its last value
across failing iterations, exactly as in the source.  Returns `none` when
the fuel runs out before chaining stops. -/
def chainLoop {P : Type} [EmptyCollection P] (env : CallEnv P)
    (validate_params : P) (remainder : List String) :
    Nat → VStatus P → List (HookEvent P) → Option Nat → Nat → Bool → P →
    Option (VStatus P × List (HookEvent P) × Option Nat × Nat × P)
  | fuel, st, evs, inst, error_handler, chain_validation, params =>
    if chain_validation then
      match fuel with
      | 0 => none
      | Nat.succ fuel =>
        let evs := evs ++ [HookEvent.validate_run error_handler validate_params]
        match perform_validate env error_handler validate_params st with
        | (st, .ok params) => some (st, evs, inst, error_handler, params)
        | (st, .error inv) =>
          let pr := process_validation_errors (asBareFn error_handler)
            remainder params inv st
          chainLoop env validate_params remainder fuel pr.1 evs
            pr.2.1 pr.2.2.1 pr.2.2.2 params
    else some (st, evs, inst, error_handler, params)

/-- Result of the dispatch orchestration up to controller invocation: the
event trace, the final validation status, `request.args_params`, the final
action (function id and the instance its bound callable is built with), the
final remainder and parameters, and the normalized response headers. -/
structure CallPhaseResult (P : Type) where
  events : List (HookEvent P)
  validation : VStatus P
  args_params : P
  actionFunc : Nat
  actionSelf : Option Nat
  remainder : List String
  params : P
  resp_headers : List (String × String)

/-- `DecoratedController._call`, lines 76-125 (through the `before_call`
notification): reset the per-request validation status, normalize the
Content-Type header (drop it when empty), decode the remainder, notify
`before_validate`, merge positional remainder and keyword parameters via the
argspec, run validation, and on failure classify the error and run the
chained-validation loop; the final action is the original method or the
selected error handler bound to the classifier's instance.  `fuel` bounds
the chain loop; `none` means the loop did not terminate within it. -/
def callPhase {P : Type} [EmptyCollection P] (env : CallEnv P)
    (action : BoundMethod) (params0 : P) (remainder0 : List String)
    (resp_headers0 : List (String × String)) (fuel : Nat) :
    Option (CallPhaseResult P) :=
  let st : VStatus P := { values := ∅ }
  let resp_headers :=
    if ((lookupMap resp_headers0 "Content-Type").getD "").isEmpty then
      popKey resp_headers0 "Content-Type"
    else resp_headers0
  let remainder :=
    if remainder0.isEmpty then [] else remainder0.map env.url2pathname
  let evs := [HookEvent.before_validate remainder params0 action.func action.self]
  let validate_params := env.get_params_with_argspec action.func params0 remainder
  let args_params := validate_params
  let evs := evs ++ [HookEvent.validate_run action.func validate_params]
  match perform_validate env action.func validate_params st with
  | (st, .ok params) =>
    let st := { st with values := params }
    let rp := env.flatten_arguments action.func params remainder
    let evs := evs ++
      [HookEvent.before_call rp.1 rp.2 action.func action.self]
    some { events := evs, validation := st, args_params,
           actionFunc := action.func, actionSelf := action.self,
           remainder := rp.1, params := rp.2, resp_headers }
  | (st, .error inv) =>
    let pr := process_validation_errors action remainder params0 inv st
    match chainLoop env validate_params remainder fuel pr.1 evs
        pr.2.1 pr.2.2.1 pr.2.2.2 params0 with
    | none => none
    | some (st, evs, inst, error_handler, params) =>
      let evs := evs ++
        [HookEvent.before_call remainder params error_handler none]
      some { events := evs, validation := st, args_params,
             actionFunc := error_handler, actionSelf := inst,
             remainder, params, resp_headers }

/-!
Response rendering (`_render_response`, lines 175-240).

The controller's return value is either a dictionary (embedded as
`List (String × α)`) or any other already-finished value of type `β`; the
template renderer `tg_render` is an opaque collaborator producing a `β`
body from the namespace, engine name, template name and extra render
parameters (of abstract type `ρ`).
-/

/-- A controller return value as `_render_response` sees it: a dictionary or
any non-dictionary value (e.g. an already-finished string body). -/
inductive PyVal (α β : Type) where
  | nonDict (b : β)
  | dict (m : List (String × α))

/-- The tuple produced by `decoration.lookup_template_engine(tgl)`: suggested
content type, engine name, template name, exclude-list and extra render
parameters. -/
structure EngineLookupResult (ρ : Type) where
  content_type : Option String
  engine_name : String
  template_name : String
  exclude_names : List String
  render_params : ρ

/-- The observable outcome of `_render_response`: the final response content
type, the `result` dictionary's fields, the namespace handed to the template
renderer (`none` when no template call happened), and the test-harness side
channel (namespace, template name, exclude-list, render parameters,
controller output). -/
structure RenderOutcome (α β ρ : Type) where
  resp_content_type : Option String
  response : PyVal α β
  content_type : Option String
  engine_name : String
  template_name : String
  namespacePassed : Option (List (String × α))
  testing_vars : Option (List (String × α) × String × List String × ρ × List (String × α))

/-- `DecoratedController._render_response` (lines 175-240): default the
response content type from the engine suggestion (appending
`; charset=utf-8` to textual/XML/XHTML/JSON types without a charset), return
non-dictionary values unchanged without touching the exclude-list or the
template renderer, and otherwise pop the excluded keys from the returned
dictionary and render it through `tg_render`. -/
def render_response {α β ρ : Type} (resp_content_type : Option String)
    (lookup : EngineLookupResult ρ) (response : PyVal α β)
    (tg_render : List (String × α) → String → String → ρ → β)
    (paste_testing : Bool) : RenderOutcome α β ρ :=
  let new_ct : Option String :=
    match resp_content_type, lookup.content_type with
    | none, some engine_content_type =>
      let content_type := engine_content_type
      if !strContains content_type "charset" &&
          (strStartsWith content_type "text" ||
           content_type = "application/xhtml+xml" ||
           content_type = "application/xml" ||
           content_type = "application/json") then
        some (content_type ++ "; charset=utf-8")
      else some content_type
    | ct, _ => ct
  match response with
  | .nonDict b =>
    { resp_content_type := new_ct, response := .nonDict b,
      content_type := lookup.content_type, engine_name := lookup.engine_name,
      template_name := lookup.template_name, namespacePassed := none,
      testing_vars := none }
  | .dict m =>
    let ns := lookup.exclude_names.foldl popKey m
    let testing_vars :=
      if paste_testing then
        some (ns, lookup.template_name, lookup.exclude_names,
              lookup.render_params, ns)
      else none
    let rendered := tg_render ns lookup.engine_name lookup.template_name
      lookup.render_params
    { resp_content_type := new_ct, response := .nonDict rendered,
      content_type := lookup.content_type, engine_name := lookup.engine_name,
      template_name := lookup.template_name, namespacePassed := some ns,
      testing_vars }

/-!
Security checking (`_check_security`, lines 297-327).
-/

/-- The request-side facts the security check consults: whether
`not_anonymous().is_met(environ)` holds for the current requester. -/
structure SecEnv where
  notAnonymousMet : Bool

/-- The controller's `allow_only` attribute: a full requirement object (one
exposing a `predicate` attribute, whose own `_check_authorization` is an
opaque collaborator) or a bare predicate, whose `check_authorization` either
passes (`none`) or raises `NotAuthorizedError` with a reason. -/
inductive AllowOnly where
  | fullRequirement
  | bare (check_authorization : SecEnv → Option String)

/-- The observable outcome of `_check_security`: a normal return (`some
true` for the explicit `return True` paths, `none` for the implicit `None`
when a bare predicate passes), delegation to a full requirement's own check,
or an abort carrying the response status, flash message and severity, abort
code and comment, and the reason `_failed_authorization` was called with
(when the controller defines that hook). -/
inductive SecOutcome where
  | ret (value : Option Bool)
  | delegatedToRequirement
  | aborted (respStatus : Nat) (flashReason : String) (flashSeverity : String)
      (abortCode : Nat) (abortComment : String)
      (failedAuthorizationReason : Option String)
  deriving DecidableEq

/-- `DecoratedController._check_security` (lines 297-327): no `allow_only`
means authorized; a full requirement delegates to its own check; a bare
predicate is evaluated, and on failure the `_failed_authorization` hook is
called when present, the failure is classified as 403/"error" for a
non-anonymous requester and 401/"warning" otherwise, the response status is
set, the reason is flashed with that severity, and the request is aborted
with that code and the reason as comment. -/
def check_security (allow_only : Option AllowOnly)
    (has_failed_authorization : Bool) (env : SecEnv) : SecOutcome :=
  match allow_only with
  | none => .ret (some true)
  | some .fullRequirement => .delegatedToRequirement
  | some (.bare predicate) =>
    match predicate env with
    | none => .ret none
    | some reason =>
      let failedAuthReason := if has_failed_authorization then some reason else none
      if env.notAnonymousMet then
        .aborted 403 reason "error" 403 reason failedAuthReason
      else
        .aborted 401 reason "warning" 401 reason failedAuthReason

/-!
Concrete instances used to evaluate the theorems on closed inputs.
-/

/-- Parameter maps for concrete runs: string-valued dictionaries. -/
abbrev PM : Type := List (String × String)

/-- A controller decoration with no validations, over `PM`. -/
def envNoVal : CallEnv PM :=
  { decoration := fun _ => {},
    get_params_with_argspec := fun _ p _ => p,
    flatten_arguments := fun _ p r => (r, p),
    url2pathname := fun s => s }

/-- An intent that always fails with a generic error, naming function 1 as
error handler and requesting chained validation. -/
def intentFailC1 : Intent PM :=
  { check := fun _ _ => .error (.generic "boom" none),
    error_handler := some 1,
    chain_validation := true }

/-- An intent that accepts the parameters unchanged. -/
def intentOkC1 : Intent PM :=
  { check := fun _ p => .ok p }

/-- A dispatch environment in which the original action (function 0) fails
validation and chains to handler 1, whose validation succeeds; the merged
parameters differ depending on which function the argspec merge is done
for, so a re-merge for the handler would be observable. -/
def envC1 : CallEnv PM :=
  { decoration := fun f =>
      if f = 0 then { validations := [intentFailC1] }
      else { validations := [intentOkC1] },
    get_params_with_argspec := fun f _ _ =>
      if f = 0 then [("merged", "orig")] else [("merged", "handler")],
    flatten_arguments := fun _ p r => (r, p),
    url2pathname := fun s => s }

/-- The result of dispatching function 0 (bound to instance 5) through
`envC1` with parameters `[("q", "1")]`: validation of 0 fails, handler 1 is
chained and validates successfully against the originally merged
parameters. -/
def resC1 : CallPhaseResult PM :=
  { events := [HookEvent.before_validate [] [("q", "1")] 0 (some 5),
               HookEvent.validate_run 0 [("merged", "orig")],
               HookEvent.validate_run 1 [("merged", "orig")],
               HookEvent.before_call [] [("merged", "orig")] 1 none],
    validation := { intent := some intentOkC1,
                    errors := [("_the_form", "boom")],
                    values := [],
                    exception := some (VException.generic "boom" none) },
    args_params := [("merged", "orig")],
    actionFunc := 1,
    actionSelf := some 5,
    remainder := [],
    params := [("merged", "orig")],
    resp_headers := [] }

/-- A concrete engine lookup suggesting JSON content with no charset. -/
def lookupJson : EngineLookupResult Unit :=
  { content_type := some "application/json", engine_name := "json",
    template_name := "", exclude_names := [], render_params := () }

/-- A concrete engine lookup excluding the key `y`. -/
def lookupExclY : EngineLookupResult Unit :=
  { content_type := none, engine_name := "genshi",
    template_name := "index", exclude_names := ["y"], render_params := () }

/-- A trivial template-renderer collaborator over `Nat`-valued namespaces. -/
def tgRenderNat : List (String × Nat) → String → String → Unit → String :=
  fun _ _ _ _ => "rendered"

/-- An intent that replaces the parameters with a fixed cleaned map. -/
def intentA : Intent PM :=
  { check := fun _ _ => .ok [("cleaned", "1")] }

/-- An intent that prepends an entry to the parameters it receives. -/
def intentB : Intent PM :=
  { check := fun _ p => .ok (("b", "2") :: p) }

/-- A dispatch environment whose every controller runs `intentA` then
`intentB`. -/
def envC6 : CallEnv PM :=
  { decoration := fun _ => { validations := [intentA, intentB] },
    get_params_with_argspec := fun _ p _ => p,
    flatten_arguments := fun _ p r => (r, p),
    url2pathname := fun s => s }

/-- A validation status with a pre-existing error entry under key `zz`. -/
def stC10 : VStatus PM :=
  { errors := [("zz", "old")], values := [] }

/-!
Helper lemmas.
-/

/-- Dictionary assignment followed by lookup: the assigned key now maps to
the new value, every other key is untouched. -/
theorem lookupMap_updateMap {α : Type} (m : List (String × α)) (k : String)
    (v : α) (q : String) :
    lookupMap (updateMap m k v) q = if q = k then some v else lookupMap m q := by
  induction m with
  | nil =>
    by_cases h : q = k
    · simp [updateMap, lookupMap, h]
    · simp [updateMap, lookupMap, h, Ne.symm h]
  | cons kv rest ih =>
    by_cases hk : kv.1 = k
    · by_cases hq : q = k
      · simp [updateMap, lookupMap, hk, hq]
      · simp [updateMap, lookupMap, hk, hq, Ne.symm hq]
    · by_cases hq1 : kv.1 = q
      · have hqk : ¬ q = k := fun h => hk (hq1.trans h)
        simp [updateMap, lookupMap, hk, hq1, hqk]
      · simp [updateMap, lookupMap, hk, hq1, ih]

/-- Unfolding `popKey` on a cons cell. -/
theorem popKey_cons {α : Type} (kv : String × α) (rest : List (String × α))
    (e : String) :
    popKey (kv :: rest) e =
      if kv.1 = e then popKey rest e else kv :: popKey rest e := by
  by_cases h : kv.1 = e <;> simp [popKey, List.filter_cons, h]

/-- Removing a key then looking up: the removed key is gone, other keys are
untouched. -/
theorem lookupMap_popKey {α : Type} (m : List (String × α)) (e q : String) :
    lookupMap (popKey m e) q = if q = e then none else lookupMap m q := by
  induction m with
  | nil => simp [popKey, lookupMap]
  | cons kv rest ih =>
    rw [popKey_cons]
    by_cases hk : kv.1 = e
    · rw [if_pos hk, ih]
      by_cases hq : q = e
      · simp [hq]
      · have hkq : ¬ kv.1 = q := fun h => hq (h.symm.trans hk)
        simp [lookupMap, hq, hkq]
    · rw [if_neg hk]
      by_cases hq1 : kv.1 = q
      · have hqe : ¬ q = e := fun h => hk (hq1.trans h)
        simp [lookupMap, hq1, hqe]
      · simp [lookupMap, hq1, ih]

/-- Popping a list of keys: a key in the list is gone, the rest are
untouched. -/
theorem lookupMap_foldl_popKey {α : Type} (excl : List String)
    (m : List (String × α)) (q : String) :
    lookupMap (excl.foldl popKey m) q =
      if q ∈ excl then none else lookupMap m q := by
  induction excl generalizing m with
  | nil => simp
  | cons e rest ih =>
    simp only [List.foldl_cons, ih, lookupMap_popKey, List.mem_cons]
    by_cases h1 : q ∈ rest <;> by_cases h2 : q = e <;> simp [h1, h2]

/-- Folding a generic-failure line into the error map leaves every key other
than the line's key untouched. -/
theorem lookupMap_processErrorLine (m : List (String × String)) (line q : String)
    (h : q ≠ errorLineKey line) :
    lookupMap (processErrorLine m line) q = lookupMap m q := by
  unfold processErrorLine
  unfold errorLineKey at h
  cases hsp : pySplitOnce ':' line with
  | mk fst snd =>
    cases snd with
    | none => rw [hsp] at h; simp at h; simp [lookupMap_updateMap, h]
    | some v => rw [hsp] at h; simp at h; simp [lookupMap_updateMap, h]

/-- Folding a list of generic-failure lines into the error map leaves every
key none of the lines touches untouched. -/
theorem lookupMap_foldl_processErrorLine (lines : List String)
    (m : List (String × String)) (q : String)
    (h : ∀ l ∈ lines, q ≠ errorLineKey l) :
    lookupMap (lines.foldl processErrorLine m) q = lookupMap m q := by
  induction lines generalizing m with
  | nil => simp
  | cons l rest ih =>
    simp only [List.foldl_cons]
    rw [ih _ (fun x hx => h x (by simp [hx]))]
    exact lookupMap_processErrorLine m l q (h l (by simp))

/-- The generic branch of the classifier leaves entries for keys the failure
message does not touch untouched. -/
theorem lookupMap_processGenericLines (m : List (String × String))
    (message q : String) (h : q ∉ genericTouchedKeys message) :
    lookupMap (processGenericLines m message) q = lookupMap m q := by
  unfold processGenericLines
  apply lookupMap_foldl_processErrorLine
  intro l hl heq
  exact h (by unfold genericTouchedKeys; exact List.mem_map.mpr ⟨l, hl, heq.symm⟩)

/-- The status returned by the classifier, by failure shape: the exception is
recorded, and the error/value maps are populated per shape while the intent
is left untouched. -/
theorem process_validation_errors_fst {P : Type} [EmptyCollection P]
    (c : BoundMethod) (rem : List String) (p : P) (e : VException P)
    (st : VStatus P) :
    (process_validation_errors c rem p e st).1 =
      (match e with
       | .tw2 ch wv =>
         { st with exception := some e, errors := dictOfPairs ch, values := wv }
       | .tgval ed v =>
         { st with exception := some e, errors := ed, values := v }
       | .generic msg v =>
         { st with exception := some e,
                   errors := processGenericLines st.errors msg,
                   values := v.getD ∅ }) := by
  cases e <;>
    (dsimp only [process_validation_errors]; split <;> rfl)

/-- The classifier's returned triple when the validation status carries no
error handler: the original controller's instance, its underlying function,
and chaining forced off. -/
theorem process_validation_errors_snd_none {P : Type} [EmptyCollection P]
    (c : BoundMethod) (rem : List String) (p : P) (e : VException P)
    (st : VStatus P) (h : st.error_handler = none) :
    (process_validation_errors c rem p e st).2 =
      (im_self c, default_im_func c, false) := by
  unfold VStatus.error_handler at h
  cases e <;>
    (dsimp only [process_validation_errors, VStatus.error_handler]; rw [h])

/-- The classifier's returned triple when the validation status carries an
error handler: the original controller's instance, that handler, and the
status's chain flag. -/
theorem process_validation_errors_snd_some {P : Type} [EmptyCollection P]
    (c : BoundMethod) (rem : List String) (p : P) (e : VException P)
    (st : VStatus P) (eh : Nat) (h : st.error_handler = some eh) :
    (process_validation_errors c rem p e st).2 =
      (im_self c, eh, st.chain_validation) := by
  unfold VStatus.error_handler at h
  cases e <;>
    (dsimp only [process_validation_errors, VStatus.error_handler,
                 VStatus.chain_validation]
     rw [h])

/-- Compositionality of the validation-runner loop: running a concatenation
of intents threads the first segment's cleaned output into the second
segment, and stops at the first failure. -/
theorem runIntents_append {P : Type} (f : Nat) (xs ys : List (Intent P))
    (p : P) (st : VStatus P) :
    runIntents f (xs ++ ys) p st =
      match runIntents f xs p st with
      | (st1, .ok q) => runIntents f ys q st1
      | (st1, .error e) => (st1, .error e) := by
  induction xs generalizing p st with
  | nil => simp [runIntents]
  | cons i rest ih =>
    dsimp only [List.cons_append, runIntents]
    cases i.check f p <;> simp [ih]

/-- `countBeforeValidate` adds over concatenation. -/
theorem countBeforeValidate_append {P : Type} (a b : List (HookEvent P)) :
    countBeforeValidate (a ++ b) =
      countBeforeValidate a + countBeforeValidate b := by
  simp [countBeforeValidate, List.filter_append]

/-- A trace made of `validate_run` records contains no `before_validate`
notification. -/
theorem countBeforeValidate_validate_runs {P : Type} (l : List (HookEvent P))
    (vp : P) (h : ∀ e ∈ l, ∃ g, e = HookEvent.validate_run g vp) :
    countBeforeValidate l = 0 := by
  induction l with
  | nil => rfl
  | cons e rest ih =>
    obtain ⟨g, hg⟩ := h e (by simp)
    subst hg
    have hrest := ih (fun x hx => h x (by simp [hx]))
    simpa [countBeforeValidate, List.filter_cons] using hrest

/-- Every successful run of the chained-validation loop only appends
`validate_run` records for the originally merged `validate_params` to the
event trace: the loop never fires `before_validate` again and never re-merges
the parameters for the handler it validates. -/
theorem chainLoop_events {P : Type} [EmptyCollection P] (env : CallEnv P)
    (vp : P) (rem : List String) :
    ∀ (fuel : Nat) (st : VStatus P) (evs : List (HookEvent P))
      (inst : Option Nat) (eh : Nat) (cv : Bool) (p : P)
      (res : VStatus P × List (HookEvent P) × Option Nat × Nat × P),
      chainLoop env vp rem fuel st evs inst eh cv p = some res →
      ∃ extra, res.2.1 = evs ++ extra ∧
        ∀ e ∈ extra, ∃ g, e = HookEvent.validate_run g vp := by
  intro fuel
  induction fuel with
  | zero =>
    intro st evs inst eh cv p res h
    by_cases hcv : cv
    · simp [chainLoop, hcv] at h
    · simp [chainLoop, hcv] at h
      exact ⟨[], by simp [← h], by simp⟩
  | succ n ih =>
    intro st evs inst eh cv p res h
    by_cases hcv : cv
    · simp only [chainLoop, hcv, if_true] at h
      rcases hpv : perform_validate env eh vp st with ⟨st2, r2⟩
      rw [hpv] at h
      cases r2 with
      | ok q =>
        simp only [Option.some.injEq] at h
        refine ⟨[HookEvent.validate_run eh vp], ?_, ?_⟩
        · rw [← h]
        · intro e he
          simp only [List.mem_singleton] at he
          exact ⟨eh, he⟩
      | error inv =>
        obtain ⟨extra, hx, hall⟩ := ih _ _ _ _ _ _ _ h
        refine ⟨HookEvent.validate_run eh vp :: extra, ?_, ?_⟩
        · rw [hx]; simp
        · intro e he
          rcases List.mem_cons.mp he with he | he
          · exact ⟨eh, he⟩
          · exact hall e he
    · simp [chainLoop, hcv] at h
      exact ⟨[], by simp [← h], by simp⟩

/-!
Claim theorems.
-/

/-- Claim C2: for a generic/text validation failure the classifier builds
the error map by splitting the failure's string form into lines, splitting
each line on the first colon into stripped field key and message, keying
colon-less lines under the reserved `_the_form` key, with last-write-wins
per key; in particular `"a: bad\nb: bad2"` yields exactly
`{a: "bad", b: "bad2"}` and `"overall bad"` yields
`{_the_form: "overall bad"}`. -/
theorem claim_C2 :
    (∀ (c : BoundMethod) (rem : List String) (p : PM) (v : Option PM)
       (st : VStatus PM) (msg : String),
       ((process_validation_errors c rem p (.generic msg v) st).1).errors =
         processGenericLines st.errors msg)
  ∧ processGenericLines [] "a: bad\nb: bad2" = [("a", "bad"), ("b", "bad2")]
  ∧ processGenericLines [] "overall bad" = [("_the_form", "overall bad")]
  ∧ (∀ (m : List (String × String)) (k v : String),
       lookupMap (updateMap m k v) k = some v) := by
  refine ⟨?_, rfl, rfl, ?_⟩
  · intro c rem p v st msg
    rw [process_validation_errors_fst]
  · intro m k v
    simp [lookupMap_updateMap]

/-- Claim C3: when the validation status carries no error handler, the
classifier returns the original controller's underlying function as the
error handler and forces the chain-validation flag to false. -/
theorem claim_C3 {P : Type} [EmptyCollection P] (c : BoundMethod)
    (rem : List String) (p : P) (e : VException P) (st : VStatus P)
    (h : st.error_handler = none) :
    (process_validation_errors c rem p e st).2 =
      (im_self c, default_im_func c, false) :=
  process_validation_errors_snd_none c rem p e st h

/-- Witness for claim C3 at a concrete bound method and fresh status. -/
theorem claim_C3_witness :
    (process_validation_errors (P := PM) ⟨2, some 7⟩ [] []
        (.generic "x" none) { values := [] }).2 = (some 7, 2, false) :=
  claim_C3 ⟨2, some 7⟩ [] [] (.generic "x" none) { values := [] } rfl

/-- Claim C5: with no configured validations, the validation runner returns
the parameter mapping unchanged. -/
theorem claim_C5 {P : Type} (env : CallEnv P) (controller : Nat) (params : P)
    (st : VStatus P) (h : (env.decoration controller).validations = []) :
    perform_validate env controller params st = (st, .ok params) := by
  dsimp only [perform_validate]
  rw [h]
  rfl

/-- Witness for claim C5 at a concrete decoration with no validations. -/
theorem claim_C5_witness :
    perform_validate envNoVal 0 [("a", "1")] { values := [] } =
      ({ values := [] }, .ok [("a", "1")]) :=
  claim_C5 envNoVal 0 [("a", "1")] { values := [] } rfl

/-- Claim C6: the validation runner applies a non-empty list of intents in
declared order, threading parameters left to right: when the leading intents
succeed with cleaned output `q`, the run's result is the last intent applied
to `q` (so each intent sees the previous intent's cleaned output, and the
runner's result is the last intent's output). -/
theorem claim_C6 {P : Type} (env : CallEnv P) (controller : Nat)
    (xs : List (Intent P)) (i : Intent P) (p q : P) (st st1 : VStatus P)
    (hdec : (env.decoration controller).validations = xs ++ [i])
    (hrun : runIntents controller xs p st = (st1, .ok q)) :
    perform_validate env controller p st =
      ({ st1 with intent := some i }, i.check controller q) := by
  dsimp only [perform_validate]
  rw [hdec]
  have hne : (xs ++ [i]).isEmpty = false := by cases xs <;> rfl
  rw [hne]
  simp only [Bool.false_eq_true, if_false]
  rw [runIntents_append, hrun]
  dsimp only [runIntents]
  cases i.check controller q <;> rfl

/-- Witness for claim C6: running `intentA` then `intentB`, the second
intent receives the first one's cleaned output and delivers the final
result. -/
theorem claim_C6_witness :
    perform_validate envC6 0 [("raw", "0")] { values := [] } =
      ({ intent := some intentB, errors := [], values := [],
         exception := none },
       .ok [("b", "2"), ("cleaned", "1")]) :=
  claim_C6 envC6 0 [intentA] intentB [("raw", "0")] [("cleaned", "1")]
    { values := [] } { intent := some intentA, values := [] } rfl rfl

/-- Claim C7: when the response has no content type and the engine suggests
a textual/XML/XHTML/JSON type without a charset, the renderer sets the
response content type to the suggestion with `; charset=utf-8` appended. -/
theorem claim_C7 {α β ρ : Type} (lookup : EngineLookupResult ρ)
    (response : PyVal α β)
    (tg_render : List (String × α) → String → String → ρ → β)
    (paste_testing : Bool) (ct : String)
    (h1 : lookup.content_type = some ct)
    (h2 : strContains ct "charset" = false)
    (h3 : strStartsWith ct "text" = true ∨ ct = "application/xhtml+xml" ∨
          ct = "application/xml" ∨ ct = "application/json") :
    (render_response none lookup response tg_render paste_testing).resp_content_type
      = some (ct ++ "; charset=utf-8") := by
  dsimp only [render_response]
  rw [h1]
  have hcond : (!strContains ct "charset" &&
      (strStartsWith ct "text" || ct = "application/xhtml+xml" ||
       ct = "application/xml" || ct = "application/json")) = true := by
    rw [h2]
    rcases h3 with h | h | h | h <;> simp [h]
  cases response <;> simp [hcond]

/-- Witness for claim C7: a suggested `application/json` with no charset
yields the final content type `application/json; charset=utf-8`. -/
theorem claim_C7_witness :
    (render_response none lookupJson (PyVal.nonDict "body" : PyVal Nat String)
        (fun _ _ _ _ => "") false).resp_content_type =
      some "application/json; charset=utf-8" :=
  claim_C7 lookupJson (PyVal.nonDict "body") (fun _ _ _ _ => "") false
    "application/json" rfl rfl (Or.inr (Or.inr (Or.inr rfl)))

/-- Claim C8: a non-mapping controller return value is passed through as the
response body unchanged, with no exclude-list removal and no call to the
template-rendering collaborator. -/
theorem claim_C8 {α β ρ : Type} (resp_content_type : Option String)
    (lookup : EngineLookupResult ρ) (b : β)
    (tg_render : List (String × α) → String → String → ρ → β)
    (paste_testing : Bool) :
    (render_response resp_content_type lookup (PyVal.nonDict b) tg_render
        paste_testing).response = PyVal.nonDict b
  ∧ (render_response resp_content_type lookup (PyVal.nonDict b) tg_render
        paste_testing).namespacePassed = none
  ∧ (render_response resp_content_type lookup (PyVal.nonDict b) tg_render
        paste_testing).testing_vars = none :=
  ⟨rfl, rfl, rfl⟩

/-- Claim C9: for a mapping return value, the namespace handed to the
template renderer is exactly the mapping with every key of the exclude-list
removed (keys absent from the mapping are ignored); in particular
`{"x": 1, "y": 2}` with exclude-list `["y"]` yields namespace `{"x": 1}`. -/
theorem claim_C9 :
    (∀ (α β ρ : Type) (resp_content_type : Option String)
       (lookup : EngineLookupResult ρ) (m : List (String × α))
       (tg_render : List (String × α) → String → String → ρ → β)
       (paste_testing : Bool) (k : String),
       lookupMap (((render_response resp_content_type lookup (PyVal.dict m)
           tg_render paste_testing).namespacePassed).getD []) k =
         if k ∈ lookup.exclude_names then none else lookupMap m k)
  ∧ (render_response none lookupExclY (PyVal.dict [("x", 1), ("y", 2)])
       tgRenderNat false).namespacePassed = some [("x", 1)] := by
  constructor
  · intro α β ρ rct lookup m tg_render pt k
    have hns : (render_response rct lookup (PyVal.dict m) tg_render
        pt).namespacePassed = some (lookup.exclude_names.foldl popKey m) := by
      dsimp only [render_response]
    rw [hns]
    simp [lookupMap_foldl_popKey]
  · rfl

/-- Claim C10: a generic failure updates the status's error map in place —
entries for keys the failure's message does not name are unchanged — whereas
widget-style and structured failures replace the error map wholesale
(independently of the map's previous contents). -/
theorem claim_C10 (c : BoundMethod) (rem : List String) (p : PM)
    (v : Option PM) (st : VStatus PM) (msg k : String)
    (ch : List (String × String)) (wv : PM) (ed : List (String × String))
    (tv : PM) :
    (k ∉ genericTouchedKeys msg →
      lookupMap ((process_validation_errors c rem p (.generic msg v) st).1).errors k =
        lookupMap st.errors k)
  ∧ ((process_validation_errors c rem p (.tw2 ch wv) st).1).errors =
      dictOfPairs ch
  ∧ ((process_validation_errors c rem p (.tgval ed tv) st).1).errors = ed := by
  refine ⟨?_, ?_, ?_⟩
  · intro hk
    rw [process_validation_errors_fst]
    exact lookupMap_processGenericLines st.errors msg k hk
  · rw [process_validation_errors_fst]
  · rw [process_validation_errors_fst]

/-- Witness for claim C10: a generic failure naming only field `a` leaves a
pre-existing entry under `zz` in place, while widget-style and structured
failures discard it. -/
theorem claim_C10_witness :
    (lookupMap ((process_validation_errors (P := PM) ⟨0, none⟩ [] []
        (.generic "a: bad" none) stC10).1).errors "zz" = some "old")
  ∧ ((process_validation_errors (P := PM) ⟨0, none⟩ [] []
        (.tw2 [("f1", "m1")] []) stC10).1).errors = dictOfPairs [("f1", "m1")]
  ∧ ((process_validation_errors (P := PM) ⟨0, none⟩ [] []
        (.tgval [("e", "m")] []) stC10).1).errors = [("e", "m")] :=
  ⟨(claim_C10 ⟨0, none⟩ [] [] none stC10 "a: bad" "zz" [("f1", "m1")] []
      [("e", "m")] []).1 (by decide),
   (claim_C10 ⟨0, none⟩ [] [] none stC10 "a: bad" "zz" [("f1", "m1")] []
      [("e", "m")] []).2.1,
   (claim_C10 ⟨0, none⟩ [] [] none stC10 "a: bad" "zz" [("f1", "m1")] []
      [("e", "m")] []).2.2⟩

/-- Claim C4: a failing bare `allow_only` predicate yields status 403 and a
flash of the failure reason with severity "error" for a requester already
known to be non-anonymous, and status 401 with severity "warning" otherwise;
in both cases the request is aborted with that status code and the reason as
comment. -/
theorem claim_C4 (predicate : SecEnv → Option String)
    (has_failed_authorization : Bool) (env : SecEnv) (reason : String)
    (h : predicate env = some reason) :
    check_security (some (.bare predicate)) has_failed_authorization env =
      .aborted (if env.notAnonymousMet then 403 else 401) reason
        (if env.notAnonymousMet then "error" else "warning")
        (if env.notAnonymousMet then 403 else 401) reason
        (if has_failed_authorization then some reason else none) := by
  dsimp only [check_security]
  rw [h]
  cases henv : env.notAnonymousMet <;> simp [henv]

/-- Witness for claim C4: a known non-anonymous requester failing the
predicate receives 403 with severity "error" and the reason as abort
comment. -/
theorem claim_C4_witness :
    check_security (some (.bare (fun _ => some "denied"))) false ⟨true⟩ =
      .aborted 403 "denied" "error" 403 "denied" none :=
  claim_C4 (fun _ => some "denied") false ⟨true⟩ "denied" rfl

/-- Claim C1 (amended): on validation failure the orchestrator repeats only
the validation step against the error handler — every dispatch, chained or
not, fires `before_validate` exactly once, and every validation run
(including each chained re-validation of an error handler) receives the
parameters merged once for the original action; the loop runs until no
further chaining is requested. -/
theorem claim_C1 {P : Type} [EmptyCollection P] (env : CallEnv P)
    (action : BoundMethod) (params0 : P) (remainder0 : List String)
    (resp_headers0 : List (String × String)) (fuel : Nat)
    (res : CallPhaseResult P)
    (h : callPhase env action params0 remainder0 resp_headers0 fuel = some res) :
    countBeforeValidate res.events = 1 ∧
    ∀ g p, HookEvent.validate_run g p ∈ res.events →
      p = env.get_params_with_argspec action.func params0
            (if remainder0.isEmpty then []
             else remainder0.map env.url2pathname) := by
  simp only [callPhase] at h
  set rem := (if remainder0.isEmpty then ([] : List String)
              else remainder0.map env.url2pathname) with hrem
  set vp := env.get_params_with_argspec action.func params0 rem with hvp
  split at h
  case _ st1 params1 heq =>
    simp only [Option.some.injEq] at h
    subst h
    refine ⟨rfl, ?_⟩
    intro g p hp
    simp only [List.mem_append, List.mem_singleton] at hp
    rcases hp with (hp | hp) | hp
    · cases hp
    · cases hp; rfl
    · cases hp
  case _ st1 inv heq =>
    split at h
    case _ hcl => cases h
    case _ st2 evs2 inst2 eh2 p2 hcl =>
      simp only [Option.some.injEq] at h
      subst h
      obtain ⟨extra, hx, hall⟩ :=
        chainLoop_events env vp rem fuel _ _ _ _ _ _ _ hcl
      simp only at hx
      subst hx
      constructor
      · rw [countBeforeValidate_append, countBeforeValidate_append]
        rw [countBeforeValidate_validate_runs extra vp hall]
        rfl
      · intro g p hp
        simp only [List.mem_append, List.mem_singleton] at hp
        rcases hp with (((hp | hp) | hp) | hp)
        · cases hp
        · cases hp; rfl
        · obtain ⟨g2, hg2⟩ := hall _ hp
          cases hg2; rfl
        · cases hp

/-- Witness for claim C1 at the concrete chaining dispatch through `envC1`:
one `before_validate` notification, and every validation run received the
parameters merged for the original action. -/
theorem claim_C1_witness :
    countBeforeValidate resC1.events = 1 ∧
    ∀ g p, HookEvent.validate_run g p ∈ resC1.events →
      p = [("merged", "orig")] :=
  claim_C1 envC1 ⟨0, some 5⟩ [("q", "1")] [] [] 2 resC1 rfl

/-- Counterexample to claim C1 as stated: dispatching function 0 through
`envC1` chains once to error handler 1 — handler 1's validation ran and it
became the final action — yet `before_validate` was notified exactly once
(not once per repetition), and the handler's validation received the
parameters merged for the original action (`[("merged", "orig")]`), not the
`[("merged", "handler")]` a re-merge for the handler would have produced: so
steps 4 and 5 are not repeated against the error handler, only the
validation step is. -/
theorem claim_C1_counterexample :
    callPhase envC1 ⟨0, some 5⟩ [("q", "1")] [] [] 2 = some resC1
  ∧ resC1.actionFunc = 1
  ∧ HookEvent.validate_run 1 [("merged", "orig")] ∈ resC1.events
  ∧ countBeforeValidate resC1.events = 1
  ∧ ¬ 2 ≤ countBeforeValidate resC1.events
  ∧ envC1.get_params_with_argspec 1 [("q", "1")] [] = [("merged", "handler")]
  ∧ ([("merged", "handler")] : PM) ≠ [("merged", "orig")] := by
  refine ⟨rfl, rfl, by decide, rfl, by decide, rfl, by decide⟩

end TG
